import Mathlib

/-!
Shallow embedding of the freehand drawing surface of `src/components/Canvas.tsx`
(the `Canvas` React component): its tool state, drawing-session state machine,
immediate-mode stroke rendering onto the canvas 2D context, snapshot emission
via `onSave`, and the clear operation.

The canvas 2D context is modelled as a journal of paint operations: `stroke()`
appends the current path together with the current stroke style and line width,
`clearRect` appends a clear-rectangle record.  `canvas.toDataURL('image/png')`
is a browser primitive, modelled per the HTML canvas standard: it returns a
data-URL string (prefix `data:image/png;base64,`) encoding the canvas bitmap
at its physical pixel dimensions (`canvas.width` times `canvas.height`),
independent of the context's current transform; the base64 payload is
abstracted as a concrete serialisation of the journaled paint operations.

`onSave` calls are collected as a list of emitted strings, in order.
-/

/-- A surface-local point, as produced by `getCoordinates`. -/
structure Pt where
  x : Int
  y : Int
deriving DecidableEq, Repr

/-- One paint operation journaled on the canvas bitmap: a `ctx.stroke()` of the
current path with the current style, or a `ctx.clearRect` call. -/
inductive PaintOp where
  | strokeOp (path : List Pt) (style : String) (width : Nat)
  | clearRectOp (x y w h : Nat)
deriving DecidableEq, Repr

/-- The canvas 2D rendering context: current path (from `beginPath`/`moveTo`/
`lineTo`), stroke style, line width, line cap/join, the scale transform set at
mount, and the journal of committed paint operations (the bitmap content). -/
structure Ctx where
  path : List Pt
  strokeStyle : String
  lineWidth : Nat
  lineCap : String
  lineJoin : String
  scaleFactor : Nat
  painted : List PaintOp
deriving DecidableEq, Repr

/-- The `<canvas>` element: physical bitmap dimensions (`canvas.width`,
`canvas.height`) and its 2D context (`none` when `getContext('2d')` yields
null, i.e. the context is not obtainable). -/
structure CanvasEl where
  width : Nat
  height : Nat
  ctx2d : Option Ctx
deriving DecidableEq, Repr

/-- The `Canvas` component's React state together with its props: the canvas
ref (`none` when the canvas is not mounted), `isDrawing`, `color`,
`lineWidth`, `isEraser`, and the `readOnly` prop. -/
structure CState where
  canvas : Option CanvasEl
  isDrawing : Bool
  color : String
  lineWidth : Nat
  isEraser : Bool
  readOnly : Bool
deriving DecidableEq, Repr

/-- The element's bounding client rectangle (`getBoundingClientRect`). -/
structure Rect where
  left : Int
  top : Int
deriving DecidableEq, Repr

/-- Ambient browser environment: the canvas bounding rectangle and
`window.devicePixelRatio`. -/
structure Env where
  rect : Rect
  dpr : Nat
deriving DecidableEq, Repr

/-- A pointing-device event as seen by the handlers: a mouse event with client
coordinates, or a touch event with its list of touch points. -/
inductive PtrEvent where
  | mouse (clientX clientY : Int)
  | touch (touches : List (Int × Int))
deriving DecidableEq, Repr

/-- `getCoordinates(e, canvas)`: subtracts the bounding rectangle's corner
from the event's client coordinates, reading the first touch point for touch
events.  A touch event with no touch points leaves `e.touches[0]` undefined
(modelled as `none`); the source never guards this, but the browser never
delivers such an event to `touchstart`/`touchmove`. -/
def getCoordinates (e : PtrEvent) (rect : Rect) : Option Pt :=
  match e with
  | .mouse cx cy => some ⟨cx - rect.left, cy - rect.top⟩
  | .touch [] => none
  | .touch ((cx, cy) :: _) => some ⟨cx - rect.left, cy - rect.top⟩

/-- The fresh 2D context produced by the mount effect: canvas-default stroke
style and line width, `lineCap`/`lineJoin` set to `round`, scaled by the
device pixel ratio, with an empty bitmap journal. -/
def initCtx (dpr : Nat) : Ctx :=
  { path := []
    strokeStyle := "#000000"
    lineWidth := 1
    lineCap := "round"
    lineJoin := "round"
    scaleFactor := dpr
    painted := [] }

/-- The mount effect (lines 19-45): sets `canvas.width`/`canvas.height` to the
container's client size multiplied by `devicePixelRatio`, then configures the
2D context when it is obtainable (the `initialImage` branch is absent: no
initial snapshot is supplied). -/
def mountCanvas (containerW containerH dpr : Nat) (ctxObtainable : Bool) : CanvasEl :=
  { width := containerW * dpr
    height := containerH * dpr
    ctx2d := if ctxObtainable then some (initCtx dpr) else none }

/-- The component's initial state: not drawing, indigo pen color `#1e1b4b`,
line width 3, eraser off. -/
def initState (canvas : Option CanvasEl) (readOnly : Bool) : CState :=
  { canvas := canvas
    isDrawing := false
    color := "#1e1b4b"
    lineWidth := 3
    isEraser := false
    readOnly := readOnly }

/-- Serialisation of a point inside the abstracted PNG payload. -/
def ptRepr (p : Pt) : String :=
  "(" ++ toString p.x ++ "," ++ toString p.y ++ ")"

/-- Serialisation of a path inside the abstracted PNG payload. -/
def pathRepr : List Pt → String
  | [] => ""
  | p :: ps => ptRepr p ++ pathRepr ps

/-- Serialisation of one paint operation inside the abstracted PNG payload. -/
def paintOpRepr : PaintOp → String
  | .strokeOp path style w => "S" ++ pathRepr path ++ style ++ toString w
  | .clearRectOp x y w h =>
      "C" ++ toString x ++ "," ++ toString y ++ "," ++ toString w ++ "," ++ toString h

/-- Serialisation of the bitmap journal inside the abstracted PNG payload. -/
def opsRepr : List PaintOp → String
  | [] => ""
  | op :: ops => paintOpRepr op ++ ";" ++ opsRepr ops

/-- The bitmap content of a canvas element: the journal of paint operations
held by its 2D context (a canvas whose context was never obtained has a blank
bitmap). -/
def paintedOps (cv : CanvasEl) : List PaintOp :=
  match cv.ctx2d with
  | some c => c.painted
  | none => []

/-- Abstracted base64 PNG payload: a concrete serialisation of the canvas's
physical dimensions and bitmap content. -/
def pngEncode (cv : CanvasEl) : String :=
  toString cv.width ++ "x" ++ toString cv.height ++ ":" ++ opsRepr (paintedOps cv)

/-- `canvas.toDataURL('image/png')`, per the HTML canvas standard: a data-URL
string encoding the canvas bitmap at its physical pixel dimensions, with the
PNG payload abstracted by `pngEncode`.  It is never the empty string. -/
def toDataURL (cv : CanvasEl) : String :=
  "data:image/png;base64," ++ pngEncode cv

/-- Pixel dimensions of the raster image produced by `toDataURL`: per the HTML
canvas standard the exported image has exactly the canvas's physical bitmap
dimensions (`canvas.width` times `canvas.height`), regardless of the
context's transform. -/
def encodedImageDims (cv : CanvasEl) : Nat × Nat :=
  (cv.width, cv.height)

/-- `startDrawing` (lines 47-63): bail out when `readOnly`, when the canvas is
not mounted, or when the 2D context is not obtainable; otherwise set
`isDrawing`, map the event coordinates, begin a new path at them, and set the
stroke style and line width from the tool state (`#ffffff` at width 20 when
the eraser is active).  `setIsDrawing(true)` precedes the coordinate lookup,
so a coordinate-less touch event still leaves `isDrawing` set. -/
def startDrawing (env : Env) (s : CState) (e : PtrEvent) : CState × List String :=
  if s.readOnly then (s, [])
  else
    match s.canvas with
    | none => (s, [])
    | some cv =>
      match cv.ctx2d with
      | none => (s, [])
      | some ctx =>
        match getCoordinates e env.rect with
        | none => ({ s with isDrawing := true }, [])
        | some p =>
          let ctx2 : Ctx :=
            { ctx with
                path := [p]
                strokeStyle := if s.isEraser then "#ffffff" else s.color
                lineWidth := if s.isEraser then 20 else s.lineWidth }
          ({ s with isDrawing := true, canvas := some ({ cv with ctx2d := some ctx2 }) }, [])

/-- `draw` (lines 65-75): bail out when not drawing or `readOnly`, or when the
canvas/context is unavailable; otherwise map the coordinates, append them to
the current path (`lineTo`) and journal a `stroke()` of the resulting path
with the current style. -/
def draw (env : Env) (s : CState) (e : PtrEvent) : CState × List String :=
  if !s.isDrawing || s.readOnly then (s, [])
  else
    match s.canvas with
    | none => (s, [])
    | some cv =>
      match cv.ctx2d with
      | none => (s, [])
      | some ctx =>
        match getCoordinates e env.rect with
        | none => (s, [])
        | some p =>
          let ctx2 : Ctx :=
            { ctx with
                path := ctx.path ++ [p]
                painted := ctx.painted ++
                  [.strokeOp (ctx.path ++ [p]) ctx.strokeStyle ctx.lineWidth] }
          ({ s with canvas := some ({ cv with ctx2d := some ctx2 }) }, [])

/-- `stopDrawing` (lines 77-84): bail out when `readOnly`; otherwise clear
`isDrawing` and, when the canvas is mounted, emit `onSave` with the canvas's
data URL.  There is no check that a stroke was in progress. -/
def stopDrawing (s : CState) : CState × List String :=
  if s.readOnly then (s, [])
  else
    match s.canvas with
    | none => ({ s with isDrawing := false }, [])
    | some cv => ({ s with isDrawing := false }, [toDataURL cv])

/-- `clearCanvas` (lines 104-114): bail out when the canvas or its context is
unavailable; otherwise `clearRect` over the canvas size divided by the current
device pixel ratio, then emit `onSave('')`. -/
def clearCanvas (env : Env) (s : CState) : CState × List String :=
  match s.canvas with
  | none => (s, [])
  | some cv =>
    match cv.ctx2d with
    | none => (s, [])
    | some ctx =>
      let ctx2 : Ctx :=
        { ctx with painted := ctx.painted ++
            [.clearRectOp 0 0 (cv.width / env.dpr) (cv.height / env.dpr)] }
      ({ s with canvas := some ({ cv with ctx2d := some ctx2 }) }, [""])

/-- An external event delivered to the component: the pointer/touch events
bound on the `<canvas>` element (lines 160-170), the toolbar actions, and the
clear button. -/
inductive Event where
  | mouseDown (clientX clientY : Int)
  | mouseMove (clientX clientY : Int)
  | mouseUp
  | mouseLeave
  | touchStart (touches : List (Int × Int))
  | touchMove (touches : List (Int × Int))
  | touchEnd
  | clearClick
  | selectPencil
  | selectColor (c : String)
  | selectEraser
deriving DecidableEq, Repr

/-- Event dispatch, exactly as bound in the JSX: `onMouseDown`/`onTouchStart`
call `startDrawing`, `onMouseMove`/`onTouchMove` call `draw`, `onMouseUp`,
`onMouseLeave` and `onTouchEnd` all call `stopDrawing`, the trash button calls
`clearCanvas`, and the toolbar buttons update the tool state (`selectColor`
also switches the eraser off, as every palette button does). -/
def step (env : Env) (s : CState) : Event → CState × List String
  | .mouseDown cx cy => startDrawing env s (.mouse cx cy)
  | .mouseMove cx cy => draw env s (.mouse cx cy)
  | .mouseUp => stopDrawing s
  | .mouseLeave => stopDrawing s
  | .touchStart ts => startDrawing env s (.touch ts)
  | .touchMove ts => draw env s (.touch ts)
  | .touchEnd => stopDrawing s
  | .clearClick => clearCanvas env s
  | .selectPencil => ({ s with isEraser := false }, [])
  | .selectColor c => ({ s with color := c, isEraser := false }, [])
  | .selectEraser => ({ s with isEraser := true }, [])

/-- Runs a sequence of events from a state, collecting every `onSave` emission
in order. -/
def run (env : Env) : CState → List Event → CState × List String
  | s, [] => (s, [])
  | s, ev :: evs =>
    ((run env (step env s ev).1 evs).1,
      (step env s ev).2 ++ (run env (step env s ev).1 evs).2)

/-- Move events: `mouseMove` or `touchMove`. -/
def Event.isMove : Event → Bool
  | .mouseMove _ _ => true
  | .touchMove _ => true
  | _ => false

/-- Gesture events: the pointer/touch events bound on the canvas element
(down, move, up, leave, touch end) — not the toolbar or clear buttons. -/
def Event.isGesture : Event → Bool
  | .mouseDown _ _ => true
  | .mouseMove _ _ => true
  | .mouseUp => true
  | .mouseLeave => true
  | .touchStart _ => true
  | .touchMove _ => true
  | .touchEnd => true
  | _ => false

/-- Stroke-finalising events: those bound to `stopDrawing`. -/
def Event.isFinalize : Event → Bool
  | .mouseUp => true
  | .mouseLeave => true
  | .touchEnd => true
  | _ => false

/-- Core drawing operations: begin stroke, extend stroke, finalize stroke, and
clear — every event except the toolbar tool selections. -/
def Event.isCoreOp : Event → Bool
  | .selectPencil => false
  | .selectColor _ => false
  | .selectEraser => false
  | _ => true

/-! Helper lemmas shared by the claim theorems. -/

/-- Setting `isDrawing := false` on a state already in `IDLE` is the identity. -/
theorem set_isDrawing_false_eq (s : CState) (h : s.isDrawing = false) :
    { s with isDrawing := false } = s := by
  cases s
  simp_all

/-- A data URL produced by `toDataURL` is never the empty string. -/
theorem toDataURL_ne_empty (cv : CanvasEl) : toDataURL cv ≠ "" := by
  intro h
  have h2 := congrArg String.length h
  simp [toDataURL, String.length_append] at h2
  exact absurd h2.1 (by decide)

/-- Running a concatenation of event lists composes. -/
theorem run_append (env : Env) (s : CState) (a b : List Event) :
    run env s (a ++ b) =
      ((run env (run env s a).1 b).1,
        (run env s a).2 ++ (run env (run env s a).1 b).2) := by
  induction a generalizing s with
  | nil => simp [run]
  | cons ev a ih => simp [run, ih, List.append_assoc]

/-- In read-only mode, every gesture event leaves the state untouched and
emits nothing. -/
theorem step_readonly_gesture (env : Env) (s : CState) (ev : Event)
    (hro : s.readOnly = true) (hg : ev.isGesture = true) :
    step env s ev = (s, []) := by
  cases ev <;> simp_all [Event.isGesture, step, startDrawing, draw, stopDrawing]

/-- Claim C7: the coordinate mapper returns `clientX - rect.left` and
`clientY - rect.top`, identically for a mouse event and for the first touch
point of a touch event; in particular a pointer at screen `(120, 130)` over an
element whose top-left is at `(50, 80)` maps to local `(70, 50)`. -/
theorem claim_C7_coordinate_mapping (cx cy : Int) (rest : List (Int × Int)) (rect : Rect) :
    getCoordinates (.mouse cx cy) rect = some ⟨cx - rect.left, cy - rect.top⟩ ∧
    getCoordinates (.touch ((cx, cy) :: rest)) rect = some ⟨cx - rect.left, cy - rect.top⟩ ∧
    getCoordinates (.mouse 120 130) ⟨50, 80⟩ = some ⟨70, 50⟩ ∧
    getCoordinates (.touch [(120, 130)]) ⟨50, 80⟩ = some ⟨70, 50⟩ :=
  ⟨rfl, rfl, by decide, by decide⟩

/-- Claim C9: a move event received while no stroke is in progress leaves the
whole component state (in particular the Surface) unchanged and emits
nothing. -/
theorem claim_C9_move_in_idle_noop (env : Env) (s : CState) (ev : Event)
    (hidle : s.isDrawing = false) (hm : ev.isMove = true) :
    step env s ev = (s, []) := by
  cases ev <;> simp_all [Event.isMove, step, draw]

/-- Witness for claim C9 at a concrete state and move event. -/
theorem claim_C9_witness :
    step ⟨⟨0, 0⟩, 1⟩ (initState (some (mountCanvas 100 100 1 true)) false) (.mouseMove 5 7) =
      (initState (some (mountCanvas 100 100 1 true)) false, []) :=
  claim_C9_move_in_idle_noop ⟨⟨0, 0⟩, 1⟩
    (initState (some (mountCanvas 100 100 1 true)) false) (.mouseMove 5 7) rfl rfl

/-- Claim C4: a pointer-up, pointer-leave or touch-end received while no
stroke is in progress (state `IDLE`, not read-only, canvas mounted) still
emits `onSave` with the current encoded Surface, leaving the state
unchanged — `stopDrawing` never checks the drawing flag. -/
theorem claim_C4_up_in_idle_emits (env : Env) (s : CState) (cv : CanvasEl)
    (hro : s.readOnly = false) (hidle : s.isDrawing = false) (hc : s.canvas = some cv) :
    step env s .mouseUp = (s, [toDataURL cv]) ∧
    step env s .mouseLeave = (s, [toDataURL cv]) ∧
    step env s .touchEnd = (s, [toDataURL cv]) := by
  obtain ⟨cvs, d, col, lw, er, ro⟩ := s
  subst hro hidle hc
  exact ⟨rfl, rfl, rfl⟩

/-- Witness for claim C4 at a concrete idle state. -/
theorem claim_C4_witness :
    step ⟨⟨0, 0⟩, 1⟩ (initState (some (mountCanvas 100 100 1 true)) false) .mouseUp =
      (initState (some (mountCanvas 100 100 1 true)) false,
        [toDataURL (mountCanvas 100 100 1 true)]) :=
  (claim_C4_up_in_idle_emits ⟨⟨0, 0⟩, 1⟩
    (initState (some (mountCanvas 100 100 1 true)) false)
    (mountCanvas 100 100 1 true) rfl rfl rfl).1

/-- Claim C5: with `readOnly = true`, any sequence of gesture events (mouse or
touch down/move/up/leave) leaves the component state — drawing flag and
Surface included — completely unchanged and emits nothing. -/
theorem claim_C5_readonly_suppression (env : Env) (s : CState) (evs : List Event)
    (hro : s.readOnly = true) (hg : ∀ ev ∈ evs, ev.isGesture = true) :
    run env s evs = (s, []) := by
  induction evs with
  | nil => rfl
  | cons ev evs ih =>
    have h1 := step_readonly_gesture env s ev hro (hg ev (List.mem_cons_self ev evs))
    have h2 := ih (fun e he => hg e (List.mem_cons_of_mem _ he))
    simp [run, h1, h2]

/-- Witness for claim C5 at a concrete read-only state and gesture. -/
theorem claim_C5_witness :
    run ⟨⟨0, 0⟩, 1⟩ (initState (some (mountCanvas 100 100 1 true)) true)
      [.mouseDown 1 1, .mouseMove 2 2, .mouseUp] =
      (initState (some (mountCanvas 100 100 1 true)) true, []) :=
  claim_C5_readonly_suppression ⟨⟨0, 0⟩, 1⟩
    (initState (some (mountCanvas 100 100 1 true)) true)
    [.mouseDown 1 1, .mouseMove 2 2, .mouseUp] rfl (by decide)

/-- Invariant holding during an active gesture: not read-only, a stroke in
progress, canvas mounted with an obtainable 2D context. -/
def GestureInv (s : CState) : Prop :=
  s.readOnly = false ∧ s.isDrawing = true ∧
    ∃ cv c, s.canvas = some cv ∧ cv.ctx2d = some c

/-- A move event during an active gesture emits nothing and preserves the
gesture invariant. -/
theorem step_move_inv (env : Env) (s : CState) (ev : Event)
    (h : GestureInv s) (hm : ev.isMove = true) :
    (step env s ev).2 = [] ∧ GestureInv (step env s ev).1 := by
  obtain ⟨hro, hd, cv, c, hc, hx⟩ := h
  cases ev with
  | mouseMove cx cy =>
    refine ⟨?_, ?_, ?_, ?_⟩ <;>
      simp [step, draw, hro, hd, hc, hx, getCoordinates, GestureInv]
  | touchMove ts =>
    match ts with
    | [] =>
      refine ⟨?_, ?_, ?_, ?_⟩ <;>
        simp [step, draw, hro, hd, hc, hx, getCoordinates]
    | (tx, ty) :: rest =>
      refine ⟨?_, ?_, ?_, ?_⟩ <;>
        simp [step, draw, hro, hd, hc, hx, getCoordinates, GestureInv]
  | mouseDown cx cy => simp [Event.isMove] at hm
  | mouseUp => simp [Event.isMove] at hm
  | mouseLeave => simp [Event.isMove] at hm
  | touchStart ts => simp [Event.isMove] at hm
  | touchEnd => simp [Event.isMove] at hm
  | clearClick => simp [Event.isMove] at hm
  | selectPencil => simp [Event.isMove] at hm
  | selectColor cst => simp [Event.isMove] at hm
  | selectEraser => simp [Event.isMove] at hm

/-- Running a list of move events during an active gesture emits nothing and
preserves the gesture invariant. -/
theorem run_moves (env : Env) (s : CState) (evs : List Event)
    (h : GestureInv s) (hm : ∀ ev ∈ evs, ev.isMove = true) :
    (run env s evs).2 = [] ∧ GestureInv (run env s evs).1 := by
  induction evs generalizing s with
  | nil => simpa [run] using h
  | cons ev evs ih =>
    have h1 := step_move_inv env s ev h (hm ev (List.mem_cons_self ev evs))
    have h2 := ih (step env s ev).1 h1.2 (fun e he => hm e (List.mem_cons_of_mem _ he))
    simp [run, h1.1, h2.1, h2.2]

/-- A mouse-down on a mounted, writable canvas emits nothing and establishes
the gesture invariant. -/
theorem step_mouseDown_inv (env : Env) (s : CState) (cv : CanvasEl) (c : Ctx)
    (cx cy : Int)
    (hro : s.readOnly = false) (hc : s.canvas = some cv) (hx : cv.ctx2d = some c) :
    (step env s (.mouseDown cx cy)).2 = [] ∧ GestureInv (step env s (.mouseDown cx cy)).1 := by
  refine ⟨?_, ?_, ?_, ?_⟩ <;>
    simp [step, startDrawing, hro, hc, hx, getCoordinates, GestureInv]

/-- `stopDrawing` from a state satisfying the gesture invariant: clears the
drawing flag and emits exactly the canvas's data URL. -/
theorem step_up_of_inv (env : Env) (s : CState) (h : GestureInv s) :
    ∃ cv, s.canvas = some cv ∧
      step env s .mouseUp = ({ s with isDrawing := false }, [toDataURL cv]) := by
  obtain ⟨hro, hd, cv, c, hc, hx⟩ := h
  exact ⟨cv, hc, by simp [step, stopDrawing, hro, hc]⟩

/-- Claim C3: a complete gesture down, move times N, up (not read-only, canvas
mounted with context) emits exactly one `onSave` call, whose argument is the
encoding of the Surface as it stands after the up event; the down and move
prefix emits nothing. -/
theorem claim_C3_single_emission_per_gesture (env : Env) (s : CState) (cv : CanvasEl)
    (c : Ctx) (cx cy : Int) (moves : List Event)
    (hro : s.readOnly = false) (hc : s.canvas = some cv) (hx : cv.ctx2d = some c)
    (hm : ∀ ev ∈ moves, ev.isMove = true) :
    ∃ cv2 : CanvasEl,
      (run env s (.mouseDown cx cy :: (moves ++ [.mouseUp]))).1.canvas = some cv2 ∧
      (run env s (.mouseDown cx cy :: (moves ++ [.mouseUp]))).1.isDrawing = false ∧
      (run env s (.mouseDown cx cy :: (moves ++ [.mouseUp]))).2 = [toDataURL cv2] ∧
      (run env s (.mouseDown cx cy :: moves)).2 = [] := by
  have hdown := step_mouseDown_inv env s cv c cx cy hro hc hx
  have hmoves := run_moves env (step env s (.mouseDown cx cy)).1 moves hdown.2 hm
  obtain ⟨cv2, hc2, hup⟩ :=
    step_up_of_inv env (run env (step env s (.mouseDown cx cy)).1 moves).1 hmoves.2
  refine ⟨cv2, ?_, ?_, ?_, ?_⟩
  · simp [run, run_append, hup, hc2]
  · simp [run, run_append, hup]
  · simp [run, run_append, hup, hdown.1, hmoves.1]
  · simp [run, hdown.1, hmoves.1]

/-- Witness for claim C3: a concrete down, one move, up gesture. -/
theorem claim_C3_witness :
    ∃ cv2 : CanvasEl,
      (run ⟨⟨0, 0⟩, 1⟩ (initState (some (mountCanvas 100 100 1 true)) false)
        (.mouseDown 1 1 :: ([.mouseMove 2 2] ++ [.mouseUp]))).1.canvas = some cv2 ∧
      (run ⟨⟨0, 0⟩, 1⟩ (initState (some (mountCanvas 100 100 1 true)) false)
        (.mouseDown 1 1 :: ([.mouseMove 2 2] ++ [.mouseUp]))).1.isDrawing = false ∧
      (run ⟨⟨0, 0⟩, 1⟩ (initState (some (mountCanvas 100 100 1 true)) false)
        (.mouseDown 1 1 :: ([.mouseMove 2 2] ++ [.mouseUp]))).2 = [toDataURL cv2] ∧
      (run ⟨⟨0, 0⟩, 1⟩ (initState (some (mountCanvas 100 100 1 true)) false)
        (.mouseDown 1 1 :: [.mouseMove 2 2])).2 = [] :=
  claim_C3_single_emission_per_gesture ⟨⟨0, 0⟩, 1⟩
    (initState (some (mountCanvas 100 100 1 true)) false)
    (mountCanvas 100 100 1 true) (initCtx 1) 1 1 [.mouseMove 2 2]
    rfl rfl rfl (by decide)

/-- Claim C8: pointer-leave is bound to the very same handler as pointer-up,
so a down event followed by a leave (with no up) behaves identically to an
explicit up: the drawing flag returns to `IDLE` and `onSave` is emitted with
the encoded Surface. -/
theorem claim_C8_leave_ends_stroke (env : Env) (s : CState) (cv : CanvasEl)
    (c : Ctx) (cx cy : Int)
    (hro : s.readOnly = false) (hc : s.canvas = some cv) (hx : cv.ctx2d = some c) :
    (∀ t : CState, step env t .mouseLeave = step env t .mouseUp) ∧
    ∃ cv2 : CanvasEl,
      (run env s [.mouseDown cx cy, .mouseLeave]).1.canvas = some cv2 ∧
      (run env s [.mouseDown cx cy, .mouseLeave]).1.isDrawing = false ∧
      (run env s [.mouseDown cx cy, .mouseLeave]).2 = [toDataURL cv2] := by
  have hdown := step_mouseDown_inv env s cv c cx cy hro hc hx
  obtain ⟨cv2, hc2, hup⟩ := step_up_of_inv env (step env s (.mouseDown cx cy)).1 hdown.2
  have hleave : step env (step env s (.mouseDown cx cy)).1 .mouseLeave =
      step env (step env s (.mouseDown cx cy)).1 .mouseUp := rfl
  refine ⟨fun t => rfl, cv2, ?_, ?_, ?_⟩
  · simp [run, hleave, hup, hc2]
  · simp [run, hleave, hup]
  · simp [run, hleave, hup, hdown.1]

/-- Witness for claim C8: a concrete down then leave. -/
theorem claim_C8_witness :
    (∀ t : CState, step ⟨⟨0, 0⟩, 1⟩ t .mouseLeave = step ⟨⟨0, 0⟩, 1⟩ t .mouseUp) ∧
    ∃ cv2 : CanvasEl,
      (run ⟨⟨0, 0⟩, 1⟩ (initState (some (mountCanvas 100 100 1 true)) false)
        [.mouseDown 1 1, .mouseLeave]).1.canvas = some cv2 ∧
      (run ⟨⟨0, 0⟩, 1⟩ (initState (some (mountCanvas 100 100 1 true)) false)
        [.mouseDown 1 1, .mouseLeave]).1.isDrawing = false ∧
      (run ⟨⟨0, 0⟩, 1⟩ (initState (some (mountCanvas 100 100 1 true)) false)
        [.mouseDown 1 1, .mouseLeave]).2 = [toDataURL cv2] :=
  claim_C8_leave_ends_stroke ⟨⟨0, 0⟩, 1⟩
    (initState (some (mountCanvas 100 100 1 true)) false)
    (mountCanvas 100 100 1 true) (initCtx 1) 1 1 rfl rfl rfl

/-- No event ever changes the component's stored pen width: `setLineWidth` is
never invoked. -/
theorem step_lineWidth (env : Env) (s : CState) (ev : Event) :
    (step env s ev).1.lineWidth = s.lineWidth := by
  cases ev <;>
    simp only [step, startDrawing, draw, stopDrawing, clearCanvas] <;>
    (repeat' split) <;> simp

/-- No event sequence ever changes the component's stored pen width. -/
theorem run_lineWidth (env : Env) (s : CState) (evs : List Event) :
    (run env s evs).1.lineWidth = s.lineWidth := by
  induction evs generalizing s with
  | nil => rfl
  | cons ev evs ih =>
    simp only [run]
    rw [ih, step_lineWidth]

/-- Counterexample to claim C1 as stated: on a freshly mounted Surface whose
pixels are blank (no paint operation was ever journaled — confirmed by the
first conjunct, also after the gesture), a complete gesture still emits
exactly one snapshot string, and that string is not the empty-string
sentinel. -/
theorem claim_C1_counterexample :
    ((run ⟨⟨0, 0⟩, 1⟩ (initState (some (mountCanvas 100 100 1 true)) false)
        [.mouseDown 0 0, .mouseUp]).1.canvas.map paintedOps = some []) ∧
    ((run ⟨⟨0, 0⟩, 1⟩ (initState (some (mountCanvas 100 100 1 true)) false)
        [.mouseDown 0 0, .mouseUp]).2.length = 1) ∧
    ((run ⟨⟨0, 0⟩, 1⟩ (initState (some (mountCanvas 100 100 1 true)) false)
        [.mouseDown 0 0, .mouseUp]).2.contains "" = false) := by
  refine ⟨rfl, rfl, ?_⟩
  decide

/-- Claim C1 (amended): clearing a mounted Surface emits exactly the
empty-string sentinel, but a finished gesture always emits the full data-URL
encoding of the Surface — never the empty string, even when the Surface is
blank.  The empty sentinel is produced only by the clear path. -/
theorem claim_C1_empty_sentinel_amended (env : Env) (s : CState) (cv : CanvasEl)
    (c : Ctx) (hro : s.readOnly = false) (hc : s.canvas = some cv) (hx : cv.ctx2d = some c) :
    (step env s .clearClick).2 = [""] ∧
    (step env s .mouseUp).2 = [toDataURL cv] ∧
    toDataURL cv ≠ "" := by
  refine ⟨?_, ?_, toDataURL_ne_empty cv⟩
  · simp [step, clearCanvas, hc, hx]
  · simp [step, stopDrawing, hro, hc]

/-- Witness for the amended claim C1 at a concrete mounted state. -/
theorem claim_C1_witness :
    (step ⟨⟨0, 0⟩, 1⟩ (initState (some (mountCanvas 100 100 1 true)) false)
      .clearClick).2 = [""] ∧
    (step ⟨⟨0, 0⟩, 1⟩ (initState (some (mountCanvas 100 100 1 true)) false)
      .mouseUp).2 = [toDataURL (mountCanvas 100 100 1 true)] ∧
    toDataURL (mountCanvas 100 100 1 true) ≠ "" :=
  claim_C1_empty_sentinel_amended ⟨⟨0, 0⟩, 1⟩
    (initState (some (mountCanvas 100 100 1 true)) false)
    (mountCanvas 100 100 1 true) (initCtx 1) rfl rfl rfl

/-- Counterexample to claim C2 as stated: the same container (100 by 100) with
the same (blank) drawn content yields different encoded image dimensions when
mounted at device pixel density 2 versus density 1. -/
theorem claim_C2_counterexample :
    encodedImageDims (mountCanvas 100 100 2 true) ≠
      encodedImageDims (mountCanvas 100 100 1 true) := by
  decide

/-- Claim C2 (amended): the snapshot encoding covers the Surface's full
physical pixel buffer — the container dimensions multiplied by the device
pixel density — so the encoded image dimensions scale with the density
instead of being independent of it. -/
theorem claim_C2_encoding_covers_physical_region (w h dpr : Nat) (ctxOk : Bool) :
    encodedImageDims (mountCanvas w h dpr ctxOk) = (w * dpr, h * dpr) := rfl

/-- Claim C6: with the eraser active, every journaled stroke segment carries
background-white `#ffffff` at the fixed eraser width 20, regardless of the
stored pen color and width; switching the eraser off leaves the stored pen
color unchanged, so the next pen stroke uses the last-selected color at the
stored pen width — which is the default 3 in every reachable state. -/
theorem claim_C6_eraser_override (env : Env) (s : CState) (cv : CanvasEl) (c : Ctx)
    (cx cy mx my : Int)
    (her : s.isEraser = true) (hro : s.readOnly = false)
    (hc : s.canvas = some cv) (hx : cv.ctx2d = some c) :
    (∃ cv2 c2,
      (run env s [.mouseDown cx cy, .mouseMove mx my]).1.canvas = some cv2 ∧
      cv2.ctx2d = some c2 ∧
      c2.painted = c.painted ++
        [.strokeOp [⟨cx - env.rect.left, cy - env.rect.top⟩,
          ⟨mx - env.rect.left, my - env.rect.top⟩] "#ffffff" 20]) ∧
    ((step env s .selectPencil).1.color = s.color ∧
      (step env s .selectPencil).1.isEraser = false) ∧
    (∃ cv3 c3,
      (step env (step env s .selectPencil).1 (.mouseDown cx cy)).1.canvas = some cv3 ∧
      cv3.ctx2d = some c3 ∧ c3.strokeStyle = s.color ∧ c3.lineWidth = s.lineWidth) ∧
    (∀ (cv0 : Option CanvasEl) (ro : Bool) (evs : List Event),
      ((run env (initState cv0 ro) evs).1).lineWidth = 3) := by
  refine ⟨?_, ?_, ?_, ?_⟩
  · simp [run, step, startDrawing, draw, getCoordinates, her, hro, hc, hx]
  · simp [step]
  · simp [step, startDrawing, getCoordinates, hro, hc, hx]
  · intro cv0 ro evs
    simpa [initState] using run_lineWidth env (initState cv0 ro) evs

/-- Witness for claim C6 at a concrete eraser-active state. -/
theorem claim_C6_witness :
    (∃ cv2 c2,
      (run ⟨⟨0, 0⟩, 1⟩
        { initState (some (mountCanvas 100 100 1 true)) false with isEraser := true }
        [.mouseDown 1 2, .mouseMove 3 4]).1.canvas = some cv2 ∧
      cv2.ctx2d = some c2 ∧
      c2.painted = (initCtx 1).painted ++
        [.strokeOp [⟨1 - (0 : Int), 2 - (0 : Int)⟩, ⟨3 - (0 : Int), 4 - (0 : Int)⟩]
          "#ffffff" 20]) ∧
    ((step ⟨⟨0, 0⟩, 1⟩
        { initState (some (mountCanvas 100 100 1 true)) false with isEraser := true }
        .selectPencil).1.color =
      ({ initState (some (mountCanvas 100 100 1 true)) false with
          isEraser := true } : CState).color ∧
      (step ⟨⟨0, 0⟩, 1⟩
        { initState (some (mountCanvas 100 100 1 true)) false with isEraser := true }
        .selectPencil).1.isEraser = false) ∧
    (∃ cv3 c3,
      (step ⟨⟨0, 0⟩, 1⟩
        (step ⟨⟨0, 0⟩, 1⟩
          { initState (some (mountCanvas 100 100 1 true)) false with isEraser := true }
          .selectPencil).1 (.mouseDown 1 2)).1.canvas = some cv3 ∧
      cv3.ctx2d = some c3 ∧
      c3.strokeStyle =
        ({ initState (some (mountCanvas 100 100 1 true)) false with
            isEraser := true } : CState).color ∧
      c3.lineWidth =
        ({ initState (some (mountCanvas 100 100 1 true)) false with
            isEraser := true } : CState).lineWidth) ∧
    (∀ (cv0 : Option CanvasEl) (ro : Bool) (evs : List Event),
      ((run ⟨⟨0, 0⟩, 1⟩ (initState cv0 ro) evs).1).lineWidth = 3) :=
  claim_C6_eraser_override ⟨⟨0, 0⟩, 1⟩
    { initState (some (mountCanvas 100 100 1 true)) false with isEraser := true }
    (mountCanvas 100 100 1 true) (initCtx 1) 1 2 3 4 rfl rfl rfl rfl

/-- Claim C10: with the canvas not mounted, every core operation (begin
stroke, extend stroke, finalize stroke, clear) from `IDLE` leaves the
component state completely unchanged and emits nothing — in particular a
finalize with no canvas emits nothing; with the canvas mounted but its 2D
context unobtainable, every core operation leaves the state unchanged, and
begin, extend and clear emit nothing.  The step function is total, so no
exception reaches the host. -/
theorem claim_C10_unavailable_target_noop (env : Env) (s : CState)
    (hidle : s.isDrawing = false) :
    (s.canvas = none → ∀ ev : Event, ev.isCoreOp = true → step env s ev = (s, [])) ∧
    (∀ cv : CanvasEl, s.canvas = some cv → cv.ctx2d = none →
      (∀ ev : Event, ev.isCoreOp = true → (step env s ev).1 = s) ∧
      (∀ ev : Event, ev.isCoreOp = true → ev.isFinalize = false →
        (step env s ev).2 = [])) := by
  obtain ⟨cvs, d, col, lw, er, ro⟩ := s
  subst hidle
  constructor
  · intro hc ev hev
    obtain rfl : cvs = none := hc
    cases ev <;> cases ro <;>
      simp_all [Event.isCoreOp, step, startDrawing, draw, stopDrawing, clearCanvas]
  · intro cv hc hx
    obtain rfl : cvs = some cv := hc
    constructor
    · intro ev hev
      cases ev <;> cases ro <;>
        simp_all [Event.isCoreOp, step, startDrawing, draw, stopDrawing, clearCanvas]
    · intro ev hev hfin
      cases ev <;> cases ro <;>
        simp_all [Event.isCoreOp, Event.isFinalize, step, startDrawing, draw, clearCanvas]

/-- Witness for claim C10: a finalize with no canvas mounted emits nothing and
changes nothing. -/
theorem claim_C10_witness :
    step ⟨⟨0, 0⟩, 1⟩ (initState none false) .mouseUp = (initState none false, []) :=
  (claim_C10_unavailable_target_noop ⟨⟨0, 0⟩, 1⟩ (initState none false) rfl).1
    rfl .mouseUp rfl
